import Mathlib

/-!
# Verification of the `signaller` signal/slot library

A shallow embedding of `signaller.py` (classes `Reference` and `Signal`)
together with proofs about its connection bookkeeping and dispatch policy.

Modelling conventions:

* A Python object that may be passed as a slot is an `Obj`: its identity
  (`id`), its Python hash (`hash`, as returned by `obj.__hash__()`), whether
  `callable(obj)` holds, whether `asyncio.iscoroutinefunction(obj)` holds,
  its `repr`, and the observable behaviour of calling it directly during
  `emit` (whether the call raises, and which slot hash, if any, it removes
  from the emitting signal by calling `Signal.disconnect`).
* Exceptions are explicit: fallible operations return `PyResult`.
* `Signal._slots` is a Python `set`; we represent it as a `List Reference`
  in iteration order.  `set.add` is a no-op when an equal element is present
  (`slotsAdd`); `set.remove` deletes the element equal to the key
  (`slotsRemove`; `Signal.disconnect` catches `KeyError`, so a missing key
  is a no-op).  A CPython set never holds two equal elements, which for
  `Reference`s (equality = hash equality) is the predicate `slotsNoDupb`.
* `Signal.emit` runs `for ref in self._slots: ...` on the live set.  The
  CPython set iterator checks, before every `next` (including the final one
  that would end the loop), whether the set's size changed since the
  iteration began, and raises `RuntimeError` if so; `emitLoop` models this
  size check explicitly.
* `ThreadPoolExecutor(max_workers=5)` allocates a fresh pool object;
  allocation is modelled with an explicit counter `fresh` supplying the new
  pool's identity, threaded through `Signal.init`.
* The `callback` argument of `Reference.__init__` is, at every call site in
  the library, `Signal.disconnect` wrapped by `Reference._wrap_callback`;
  the firing of that death callback is modelled by `Signal.referenceDied`.
-/

namespace Signaller

/-- Python-level exceptions the embedded code can raise. -/
inductive PyError where
  /-- `TypeError` with its message. -/
  | typeError (msg : String)
  /-- `RuntimeError` with its message. -/
  | runtimeError (msg : String)
  /-- An arbitrary exception raised by the body of a slot; `objId` is the
      identity of the slot object that raised it, so that propagating the
      value unmodified is visible in the model. -/
  | slotException (objId : Nat)
deriving DecidableEq, Repr

/-- Result of a Python call: a value, or a raised exception. -/
inductive PyResult (α : Type) where
  | ok (a : α)
  | raised (e : PyError)
deriving DecidableEq, Repr

/-- A Python object as seen by the library. -/
structure Obj where
  /-- `id(obj)`: object identity. -/
  id : Nat
  /-- `obj.__hash__()`. -/
  hash : Int
  /-- `callable(obj)`. -/
  callable : Bool
  /-- `asyncio.iscoroutinefunction(obj)`. -/
  isCoroutineFunction : Bool
  /-- `obj.__repr__()`. -/
  repr : String
  /-- Behaviour of a direct call: `true` when the call raises. -/
  raises : Bool
  /-- Behaviour of a direct call: when `some h`, the body calls
      `signal.disconnect` on a slot whose Python hash is `h`. -/
  disconnects : Option Int
deriving DecidableEq, Repr

/-- `Reference`: weak or strong reference to function or method.

Fields mirror `Reference.__init__`: `force_async`, `_weak`, `_alive`,
`_hash` (captured `obj.__hash__()`), `_repr` (captured `obj.__repr__()`),
and the referent.  For a weak reference, `obj` is the target of the
`weakref.ref` / `weakref.WeakMethod`; for a strong one, `_ref` itself. -/
structure Reference where
  force_async : Bool
  _weak : Bool
  _alive : Bool
  _hash : Int
  _repr : String
  obj : Obj
deriving DecidableEq, Repr

/-- `Reference.__init__(obj, callback, weak, force_async)`: raises
`TypeError` when `obj` is not callable; otherwise captures the hash and
repr and stores the (weak or strong) reference.  The `callback` wiring is
modelled by `Signal.referenceDied` below. -/
def Reference.init (obj : Obj) (weak : Bool) (force_async : Bool) :
    PyResult Reference :=
  if obj.callable = false then
    PyResult.raised (PyError.typeError "obj has to be callable")
  else
    PyResult.ok
      { force_async := force_async, _weak := weak, _alive := true,
        _hash := obj.hash, _repr := obj.repr, obj := obj }

/-- Property `Reference.weak`. -/
def Reference.weak (r : Reference) : Bool := r._weak

/-- Property `Reference.alive`. -/
def Reference.alive (r : Reference) : Bool := r._alive

/-- `Reference.getobject()`: `self._ref() if self.weak else self._ref`.
A dead weak reference resolves to `None` (`none`). -/
def Reference.getobject (r : Reference) : Option Obj :=
  if r.weak then (if r._alive then some r.obj else none) else some r.obj

/-- `Reference.__hash__()`: the hash captured at construction. -/
def Reference.pyHash (r : Reference) : Int := r._hash

/-- `Reference.__eq__(other)` compares `self.__hash__()` with
`other.__hash__()`; the operand is represented by its Python hash. -/
def Reference.eqHash (r : Reference) (otherHash : Int) : Bool :=
  r.pyHash == otherHash

/-- `Reference.__eq__` between two `Reference`s. -/
def Reference.eqRef (r s : Reference) : Bool := r.eqHash s.pyHash

/-- `Reference.__eq__` between a `Reference` and a raw object. -/
def Reference.eqObj (r : Reference) (o : Obj) : Bool := r.eqHash o.hash

/-- The `_alive = False` flip performed by the `_wrap_callback` wrapper when
the referent is destroyed. -/
def Reference.kill (r : Reference) : Reference := { r with _alive := false }

/-- `asyncio.iscoroutinefunction` applied to the result of
`ref.getobject()`; `None` is not a coroutine function. -/
def iscoroutinefunction : Option Obj → Bool
  | some o => o.isCoroutineFunction
  | none => false

/-- A `concurrent.futures.ThreadPoolExecutor`: its object identity and its
`max_workers`. -/
structure Executor where
  id : Nat
  max_workers : Nat
deriving DecidableEq, Repr

/-- `Signal`: signal emitter.  The event loop (`self.loop`) is an opaque
external service; scheduling on it is recorded in the dispatch trace. -/
structure Signal where
  name : String
  force_async : Bool
  executor : Executor
  _slots : List Reference
deriving DecidableEq, Repr

/-- `Signal.__init__(name, loop, force_async, executor)`:
`self.executor = executor or concurrent.futures.ThreadPoolExecutor(max_workers=5)`.
When no executor is supplied, a NEW pool with 5 workers is constructed;
`fresh` is the allocator counter providing the new pool's identity, and the
bumped counter is returned alongside the signal. -/
def Signal.init (name : String) (force_async : Bool)
    (executor : Option Executor) (fresh : Nat) : Signal × Nat :=
  match executor with
  | some e =>
      ({ name := name, force_async := force_async, executor := e,
         _slots := [] }, fresh)
  | none =>
      ({ name := name, force_async := force_async,
         executor := { id := fresh, max_workers := 5 },
         _slots := [] }, fresh + 1)

/-- Python `set.add` on `_slots`: a no-op when an element equal to `r`
(equality being `Reference.__eq__`) is already present. -/
def slotsAdd (slots : List Reference) (r : Reference) : List Reference :=
  if slots.any (fun s => s.eqRef r) then slots else slots ++ [r]

/-- Python `set.remove` on `_slots`, keyed by the operand's Python hash:
removes the element equal to the key.  `Signal.disconnect` catches the
`KeyError` raised when no element matches, so absence is a no-op here. -/
def slotsRemove : List Reference → Int → List Reference
  | [], _ => []
  | s :: rest, key =>
      if s.eqHash key then rest else s :: slotsRemove rest key

/-- The Python-set invariant on the slot list: no two elements are equal,
i.e. all captured hashes are pairwise distinct. -/
def slotsNoDupb : List Reference → Bool
  | [] => true
  | s :: rest =>
      rest.all (fun t => !(s.pyHash == t.pyHash)) && slotsNoDupb rest

/-- `Signal.disconnect(slot)`: `self._slots.remove(slot)`, with the
`KeyError` for an unconnected slot caught and reduced to a warning.  The
argument is represented by its Python hash (a `Reference` or the raw
callable both work, since `Reference.__eq__` only looks at hashes). -/
def Signal.disconnect (sig : Signal) (key : Int) : Signal :=
  { sig with _slots := slotsRemove sig._slots key }

/-- The death callback installed by `connect`: `Reference._wrap_callback`
wrapping `Signal.disconnect`.  When the referent of a weak reference is
destroyed, the wrapper sets `_alive = False` on the Reference and then
calls `disconnect(self)` with the Reference itself.  Returns the updated
signal and the now-dead Reference. -/
def Signal.referenceDied (sig : Signal) (r : Reference) : Signal × Reference :=
  (sig.disconnect (Reference.pyHash (Reference.kill r)), Reference.kill r)

/-- `Signal.clear()`: disconnect all slots. -/
def Signal.clear (sig : Signal) : Signal := { sig with _slots := [] }

/-- Body of the `wrapper` closure inside `Signal.connect`: builds a
`Reference` to `func` (with `self.disconnect` as death callback) and adds
it to `_slots`, returning `func` itself.  When `Reference.__init__` raises
(non-callable `func`), the exception propagates before `_slots.add` runs,
so the signal is returned unchanged. -/
def Signal.connectSlot (sig : Signal) (func : Obj) (weak : Bool)
    (force_async : Bool) : PyResult Obj × Signal :=
  match Reference.init func weak force_async with
  | PyResult.raised e => (PyResult.raised e, sig)
  | PyResult.ok r =>
      (PyResult.ok func, { sig with _slots := slotsAdd sig._slots r })

/-- The value returned by `Signal.connect`: either the result of an
immediate (decorator-form) connection, or the `wrapper` closure itself with
its captured `weak` / `force_async` options.  Applying the returned wrapper
to a slot is `Signal.connectSlot` with those captured options. -/
inductive ConnectReturn where
  | immediate (result : PyResult Obj) (sig : Signal)
  | wrapperFn (weak : Bool) (force_async : Bool)
deriving DecidableEq, Repr

/-- `Signal.connect(*args, weak=True, force_async=False)`: when there is
exactly one positional argument and it is callable, the code assumes the
decorator form and applies `wrapper` to it at once; otherwise it returns
`wrapper`. -/
def Signal.connect (sig : Signal) (args : List Obj) (weak : Bool)
    (force_async : Bool) : ConnectReturn :=
  match args with
  | [a] =>
      if a.callable then
        ConnectReturn.immediate (sig.connectSlot a weak force_async).1
          (sig.connectSlot a weak force_async).2
      else
        ConnectReturn.wrapperFn weak force_async
  | _ => ConnectReturn.wrapperFn weak force_async

/-- One dispatch performed by `Signal.emit` for one `Reference`. -/
inductive DispatchAction where
  /-- `asyncio.async(ref(*args, **kwargs), loop=self.loop)`: the coroutine
      object produced by the slot with identity `objId` is scheduled on the
      event loop. -/
  | scheduled (objId : Nat)
  /-- `self.executor.submit(ref, *args, **kwargs)`: the slot with identity
      `objId` is submitted to the signal's executor. -/
  | submitted (objId : Nat)
  /-- `ref(*args, **kwargs)`: the slot with identity `objId` is called
      inline, synchronously. -/
  | called (objId : Nat)
deriving DecidableEq, Repr

/-- Outcome of `Signal.emit`: the dispatches performed in order, the slot
set as emission left it, and the exception that escaped `emit`, if any. -/
structure EmitResult where
  trace : List DispatchAction
  slots : List Reference
  error : Option PyError
deriving DecidableEq, Repr

/-- The `for ref in self._slots` loop of `Signal.emit`.

`n` is the set's size when iteration began; `pending` are the elements the
iterator has not yet yielded; `cur` is the live set (mutated when a
directly-called slot invokes `disconnect` on the signal); `trace`
accumulates dispatches in reverse.  Before yielding each element — and
before ending the loop — the CPython set iterator raises `RuntimeError`
if the set's size differs from `n`.

Dispatch of one reference follows the source exactly: the coroutine check
on `ref.getobject()` comes first, then the `force_async` check (submission
to the executor never runs the slot inside `emit`, so its effects are not
observed here), and otherwise the slot is called inline: a dead weak
reference resolves to `None` and the call raises `TypeError`; a live slot
may raise (propagating out of `emit`) or disconnect a slot from the
signal. -/
def emitLoop (fa : Bool) (n : Nat) :
    List Reference → List Reference → List DispatchAction → EmitResult
  | [], cur, trace =>
      if cur.length ≠ n then
        ⟨trace.reverse, cur,
          some (PyError.runtimeError "Set changed size during iteration")⟩
      else
        ⟨trace.reverse, cur, none⟩
  | r :: rest, cur, trace =>
      if cur.length ≠ n then
        ⟨trace.reverse, cur,
          some (PyError.runtimeError "Set changed size during iteration")⟩
      else if iscoroutinefunction r.getobject then
        emitLoop fa n rest cur (DispatchAction.scheduled r.obj.id :: trace)
      else if fa || r.force_async then
        emitLoop fa n rest cur (DispatchAction.submitted r.obj.id :: trace)
      else
        match r.getobject with
        | none =>
            ⟨trace.reverse, cur,
              some (PyError.typeError "NoneType object is not callable")⟩
        | some o =>
            if o.raises then
              ⟨trace.reverse, cur, some (PyError.slotException o.id)⟩
            else
              match o.disconnects with
              | none =>
                  emitLoop fa n rest cur (DispatchAction.called o.id :: trace)
              | some key =>
                  emitLoop fa n rest (slotsRemove cur key)
                    (DispatchAction.called o.id :: trace)

/-- `Signal.emit(*args, **kwargs)`: call all connected slots. -/
def Signal.emit (sig : Signal) : EmitResult :=
  emitLoop sig.force_async sig._slots.length sig._slots sig._slots []

/-- The three dispatch classes of `emit`, in the order the source tests
them. -/
inductive DispatchClass where
  | scheduled
  | submitted
  | direct
deriving DecidableEq, Repr

/-- The classification `emit` applies to one reference: coroutine check on
`ref.getobject()` first, then the `force_async` flags, else direct call. -/
def classify (fa : Bool) (r : Reference) : DispatchClass :=
  if iscoroutinefunction r.getobject then DispatchClass.scheduled
  else if fa || r.force_async then DispatchClass.submitted
  else DispatchClass.direct

/-- The single dispatch action `emit` performs for a reference of each
class. -/
def actionOf (fa : Bool) (r : Reference) : DispatchAction :=
  match classify fa r with
  | DispatchClass.scheduled => DispatchAction.scheduled r.obj.id
  | DispatchClass.submitted => DispatchAction.submitted r.obj.id
  | DispatchClass.direct => DispatchAction.called r.obj.id

/-- The `Reference` produced by a successful `Reference.init`: alive, with
the hash and repr captured from `o`. -/
def mkReference (o : Obj) (weak : Bool) (fa : Bool) : Reference :=
  { force_async := fa, _weak := weak, _alive := true,
    _hash := o.hash, _repr := o.repr, obj := o }

/-! Concrete objects and signals used to evaluate the theorems on closed
inputs. -/

/-- A plain synchronous callable. -/
def oPlain : Obj := ⟨1, 11, true, false, "plain", false, none⟩

/-- A plain callable connected with `force_async`. -/
def oForced : Obj := ⟨2, 12, true, false, "forced", false, none⟩

/-- A coroutine function. -/
def oCoro : Obj := ⟨3, 13, true, true, "coro", false, none⟩

/-- A callable whose direct call raises an exception. -/
def oRaise : Obj := ⟨4, 14, true, false, "raiser", true, none⟩

/-- Another plain callable, used as a later slot. -/
def oAfter : Obj := ⟨5, 15, true, false, "after", false, none⟩

/-- A non-callable object (e.g. the integer 42). -/
def oNC : Obj := ⟨6, 16, false, false, "42", false, none⟩

/-- A callable whose direct call disconnects the slot with hash 15
(`oAfter`) from the emitting signal. -/
def oKill : Obj := ⟨7, 17, true, false, "killer", false, some 15⟩

/-- A callable distinct from `oPlain` whose hash collides with it. -/
def oColl : Obj := ⟨8, 11, true, false, "collider", false, none⟩

/-- A default executor for concrete signals. -/
def exec0 : Executor := ⟨0, 5⟩

/-- A signal with no connected slots. -/
def sigEmpty : Signal := ⟨"s", false, exec0, []⟩

/-- A signal holding one slot of each dispatch class; the coroutine slot is
also connected with `force_async` to exercise the branch order. -/
def sigDispatch : Signal :=
  ⟨"dispatch", false, exec0,
    [mkReference oCoro true true, mkReference oForced true true,
     mkReference oPlain true false]⟩

/-- A signal whose first slot disconnects the second during `emit`. -/
def sigMutate : Signal :=
  ⟨"mut", false, exec0,
    [mkReference oKill false false, mkReference oAfter false false]⟩

/-- A signal whose middle slot raises during direct dispatch. -/
def sigAbort : Signal :=
  ⟨"abort", false, exec0,
    [mkReference oPlain true false, mkReference oRaise true false,
     mkReference oAfter true false]⟩

/-- A signal with two weakly connected slots with distinct hashes. -/
def sigDeath : Signal :=
  ⟨"death", false, exec0,
    [mkReference oPlain true false, mkReference oAfter true false]⟩

/-- The signal state after connecting `oPlain` to `sigEmpty` with
`weak=True, force_async=True`. -/
def sigAfterConnect : Signal := ⟨"s", false, exec0, [mkReference oPlain true true]⟩

end Signaller

namespace Signaller

/-! ## Helper lemmas -/

theorem getobject_of_alive (r : Reference) (h : r._alive = true) :
    r.getobject = some r.obj := by
  simp [Reference.getobject, Reference.weak, h]

theorem init_ok (o : Obj) (w : Bool) (fa : Bool) (h : o.callable = true) :
    Reference.init o w fa = PyResult.ok (mkReference o w fa) := by
  simp [Reference.init, h, mkReference]

theorem emitLoop_clean (fa : Bool) (n : Nat) (pending : List Reference)
    (cur : List Reference) (acc : List DispatchAction)
    (hlen : cur.length = n)
    (h : ∀ r ∈ pending,
        r._alive = true ∧ r.obj.raises = false ∧ r.obj.disconnects = none) :
    emitLoop fa n pending cur acc =
      ⟨acc.reverse ++ pending.map (actionOf fa), cur, none⟩ := by
  induction pending generalizing acc with
  | nil => simp [emitLoop, hlen]
  | cons r rest ih =>
      obtain ⟨ha, hr, hd⟩ := h r (List.mem_cons_self r rest)
      have hrest : ∀ q ∈ rest,
          q._alive = true ∧ q.obj.raises = false ∧ q.obj.disconnects = none :=
        fun q hq => h q (List.mem_cons_of_mem r hq)
      have hget := getobject_of_alive r ha
      by_cases hc : r.obj.isCoroutineFunction = true
      · simp [emitLoop, hlen, hget, iscoroutinefunction, hc, ih _ hrest,
          actionOf, classify]
      · by_cases hf : (fa || r.force_async) = true
        · simp [emitLoop, hlen, hget, iscoroutinefunction, hc, hf,
            ih _ hrest, actionOf, classify]
        · simp [emitLoop, hlen, hget, iscoroutinefunction, hc, hf, hr, hd,
            ih _ hrest, actionOf, classify]

theorem emitLoop_error_at (fa : Bool) (n : Nat) (pre post : List Reference)
    (r : Reference) (cur : List Reference) (acc : List DispatchAction)
    (hlen : cur.length = n)
    (hpre : ∀ q ∈ pre,
        q._alive = true ∧ q.obj.raises = false ∧ q.obj.disconnects = none)
    (halive : r._alive = true) (hcoro : r.obj.isCoroutineFunction = false)
    (hforce : (fa || r.force_async) = false) (hraise : r.obj.raises = true) :
    emitLoop fa n (pre ++ r :: post) cur acc =
      ⟨acc.reverse ++ pre.map (actionOf fa), cur,
        some (PyError.slotException r.obj.id)⟩ := by
  induction pre generalizing acc with
  | nil =>
      have hget := getobject_of_alive r halive
      simp [emitLoop, hlen, hget, iscoroutinefunction, hcoro, hforce, hraise]
  | cons q rest ih =>
      obtain ⟨ha, hr, hd⟩ := hpre q (List.mem_cons_self q rest)
      have hrest : ∀ p ∈ rest,
          p._alive = true ∧ p.obj.raises = false ∧ p.obj.disconnects = none :=
        fun p hp => hpre p (List.mem_cons_of_mem q hp)
      have hget := getobject_of_alive q ha
      by_cases hc : q.obj.isCoroutineFunction = true
      · simp [emitLoop, hlen, hget, iscoroutinefunction, hc, ih _ hrest,
          actionOf, classify]
      · by_cases hf : (fa || q.force_async) = true
        · simp [emitLoop, hlen, hget, iscoroutinefunction, hc, hf,
            ih _ hrest, actionOf, classify]
        · simp [emitLoop, hlen, hget, iscoroutinefunction, hc, hf, hr, hd,
            ih _ hrest, actionOf, classify]

theorem slotsRemove_eqHash_false (slots : List Reference) (key : Int)
    (hnd : slotsNoDupb slots = true) :
    ∀ s ∈ slotsRemove slots key, s.eqHash key = false := by
  induction slots with
  | nil => intro s hs; simp [slotsRemove] at hs
  | cons t rest ih =>
      rw [slotsNoDupb, Bool.and_eq_true] at hnd
      obtain ⟨hall, hrest⟩ := hnd
      rw [List.all_eq_true] at hall
      by_cases ht : t.eqHash key = true
      · intro s hs
        rw [slotsRemove, if_pos ht] at hs
        have h1 := hall s hs
        have h2 : t.pyHash ≠ s.pyHash := by
          simpa using h1
        have h3 : t.pyHash = key := by
          simpa [Reference.eqHash] using ht
        simp [Reference.eqHash]
        omega
      · intro s hs
        rw [slotsRemove, if_neg ht] at hs
        rcases List.mem_cons.mp hs with rfl | hs
        · exact Bool.eq_false_iff.mpr ht
        · exact ih hrest s hs

theorem slotsRemove_append_last (pre : List Reference) (r : Reference)
    (key : Int) (hpre : ∀ t ∈ pre, t.eqHash key = false)
    (hr : r.eqHash key = true) :
    slotsRemove (pre ++ [r]) key = pre := by
  induction pre with
  | nil => simp [slotsRemove, hr]
  | cons t rest ih =>
      have ht := hpre t (List.mem_cons_self t rest)
      simp [slotsRemove, ht,
        ih (fun q hq => hpre q (List.mem_cons_of_mem t hq))]

end Signaller

namespace Signaller

/-! ## Claims -/

/-- C1: for every Reference in the slot set at emission time, `emit`
routes it into exactly one of three dispatch classes, tested in this
order: a coroutine callable is scheduled on the event loop even when
`force_async` is set; otherwise, if the signal's or the Reference's
`force_async` is true, the call is submitted to the executor; otherwise
the slot is invoked inline, synchronously, before the next Reference.
The trace equality shows each slot contributes exactly one dispatch, in
iteration order; the per-reference conjuncts characterise the class.
(References in `_slots` are alive: a weak Reference's death callback
removes it synchronously — see the C5 theorem.) -/
theorem emit_three_way_dispatch (sig : Signal)
    (h : ∀ r ∈ sig._slots,
        r._alive = true ∧ r.obj.raises = false ∧ r.obj.disconnects = none) :
    sig.emit = ⟨sig._slots.map (actionOf sig.force_async), sig._slots, none⟩
  ∧ ∀ r ∈ sig._slots,
      (r.obj.isCoroutineFunction = true →
          actionOf sig.force_async r = DispatchAction.scheduled r.obj.id)
    ∧ (r.obj.isCoroutineFunction = false →
          (sig.force_async || r.force_async) = true →
          actionOf sig.force_async r = DispatchAction.submitted r.obj.id)
    ∧ (r.obj.isCoroutineFunction = false →
          (sig.force_async || r.force_async) = false →
          actionOf sig.force_async r = DispatchAction.called r.obj.id) := by
  constructor
  · have hc := emitLoop_clean sig.force_async sig._slots.length sig._slots
      sig._slots [] rfl h
    simpa [Signal.emit] using hc
  · intro r hr
    obtain ⟨ha, -, -⟩ := h r hr
    have hget := getobject_of_alive r ha
    refine ⟨fun h1 => ?_, fun h1 h2 => ?_, fun h1 h2 => ?_⟩
    · simp [actionOf, classify, iscoroutinefunction, hget, h1]
    · simp [actionOf, classify, iscoroutinefunction, hget, h1, h2]
    · simp [actionOf, classify, iscoroutinefunction, hget, h1, h2]

/-- Closed witness for C1 on `sigDispatch`. -/
theorem emit_three_way_dispatch_witness :
    (∀ r ∈ sigDispatch._slots,
        r._alive = true ∧ r.obj.raises = false ∧ r.obj.disconnects = none)
  ∧ (sigDispatch.emit =
        ⟨sigDispatch._slots.map (actionOf sigDispatch.force_async),
          sigDispatch._slots, none⟩
    ∧ ∀ r ∈ sigDispatch._slots,
        (r.obj.isCoroutineFunction = true →
            actionOf sigDispatch.force_async r =
              DispatchAction.scheduled r.obj.id)
      ∧ (r.obj.isCoroutineFunction = false →
            (sigDispatch.force_async || r.force_async) = true →
            actionOf sigDispatch.force_async r =
              DispatchAction.submitted r.obj.id)
      ∧ (r.obj.isCoroutineFunction = false →
            (sigDispatch.force_async || r.force_async) = false →
            actionOf sigDispatch.force_async r =
              DispatchAction.called r.obj.id)) :=
  ⟨by decide, emit_three_way_dispatch sigDispatch (by decide)⟩

/-- C2 (refuted; the code contradicts the spec's stated requirement):
`emit` runs `for ref in self._slots` on the live set, not on a snapshot.
When `sigMutate`'s first slot calls `disconnect` on the second slot during
`emit`, the CPython set iterator's size check raises
`RuntimeError('Set changed size during iteration')`, so a slot removal
during an in-progress `emit` iteration makes `emit` raise. -/
theorem emit_mutation_raises_runtime_error :
    sigMutate.emit =
      ⟨[DispatchAction.called oKill.id], [mkReference oKill false false],
        some (PyError.runtimeError "Set changed size during iteration")⟩ := by
  decide

/-- C8: an exception raised by a directly-called (class-3) slot propagates
unmodified to `emit`'s caller (the escaping exception is exactly the one
the slot raised, tagged with that slot's identity) and aborts dispatch to
every remaining slot: the trace contains only the dispatches of the slots
that preceded the raising one, so nothing after it is invoked, submitted,
or scheduled. -/
theorem emit_exception_aborts_dispatch (sig : Signal)
    (pre post : List Reference) (r : Reference)
    (hs : sig._slots = pre ++ r :: post)
    (hpre : ∀ q ∈ pre,
        q._alive = true ∧ q.obj.raises = false ∧ q.obj.disconnects = none)
    (halive : r._alive = true) (hcoro : r.obj.isCoroutineFunction = false)
    (hforce : (sig.force_async || r.force_async) = false)
    (hraise : r.obj.raises = true) :
    sig.emit =
      ⟨pre.map (actionOf sig.force_async), sig._slots,
        some (PyError.slotException r.obj.id)⟩ := by
  simp only [Signal.emit, hs]
  simpa using emitLoop_error_at sig.force_async (pre ++ r :: post).length
    pre post r (pre ++ r :: post) [] rfl hpre halive hcoro hforce hraise

/-- Closed witness for C8 on `sigAbort`: the first slot runs, the second
raises, the third is never dispatched. -/
theorem emit_exception_aborts_dispatch_witness :
    sigAbort._slots =
        [mkReference oPlain true false] ++
          mkReference oRaise true false :: [mkReference oAfter true false]
  ∧ (∀ q ∈ [mkReference oPlain true false],
        q._alive = true ∧ q.obj.raises = false ∧ q.obj.disconnects = none)
  ∧ (mkReference oRaise true false)._alive = true
  ∧ (mkReference oRaise true false).obj.isCoroutineFunction = false
  ∧ (sigAbort.force_async || (mkReference oRaise true false).force_async) = false
  ∧ (mkReference oRaise true false).obj.raises = true
  ∧ sigAbort.emit =
      ⟨[mkReference oPlain true false].map (actionOf sigAbort.force_async),
        sigAbort._slots,
        some (PyError.slotException (mkReference oRaise true false).obj.id)⟩ :=
  ⟨by decide, by decide, by decide, by decide, by decide, by decide,
    emit_exception_aborts_dispatch sigAbort [mkReference oPlain true false]
      [mkReference oAfter true false] (mkReference oRaise true false)
      (by decide) (by decide) (by decide) (by decide) (by decide) (by decide)⟩

/-- C3 counterexample: two Signals constructed without an explicit
executor do not share one pool — each `Signal.__init__` evaluates
`ThreadPoolExecutor(max_workers=5)` afresh, so the two pools are distinct
objects. -/
theorem default_executor_not_shared :
    ((Signal.init "a" false none 0).1).executor ≠
      ((Signal.init "b" false none (Signal.init "a" false none 0).2).1).executor := by
  decide

/-- C3 (amended): a Signal constructed without an explicit executor owns a
freshly allocated `ThreadPoolExecutor` sized 5 workers of its own; two
Signals so constructed own two distinct pools. -/
theorem default_executor_fresh_per_signal (n1 n2 : String)
    (fa1 fa2 : Bool) (c : Nat) :
    ((Signal.init n1 fa1 none c).1).executor.max_workers = 5
  ∧ ((Signal.init n2 fa2 none (Signal.init n1 fa1 none c).2).1).executor.max_workers = 5
  ∧ ((Signal.init n1 fa1 none c).1).executor ≠
      ((Signal.init n2 fa2 none (Signal.init n1 fa1 none c).2).1).executor := by
  refine ⟨rfl, rfl, ?_⟩
  simp only [Signal.init, ne_eq, Executor.mk.injEq, not_and]
  intro hid
  omega

/-- C4: connecting the same callable twice — with identical or different
`weak` / `force_async` settings — leaves exactly one entry in `_slots`:
the second `set.add` is a no-op (an equal Reference is already present)
and the first-registered Reference, with its original flags, is retained.
`s1` is the state after the first connect; the second connect returns the
slot again but leaves the state fixed. -/
theorem connect_twice_idempotent (sig : Signal) (f : Obj)
    (w1 fa1 w2 fa2 : Bool) (hc : f.callable = true)
    (hno : ∀ t ∈ sig._slots, t.eqObj f = false) :
    ∃ s1 : Signal,
      sig.connectSlot f w1 fa1 = (PyResult.ok f, s1)
    ∧ s1.connectSlot f w2 fa2 = (PyResult.ok f, s1)
    ∧ (s1._slots.filter (fun t => t.eqObj f)).length = 1
    ∧ ∀ t ∈ s1._slots, t.eqObj f = true →
        t.force_async = fa1 ∧ t._weak = w1 := by
  have heq1 : ∀ t : Reference, t.eqRef (mkReference f w1 fa1) = t.eqObj f :=
    fun t => rfl
  have hany1 : sig._slots.any (fun s => s.eqRef (mkReference f w1 fa1)) = false := by
    rw [List.any_eq_false]
    intro t ht
    rw [heq1 t, hno t ht]
    simp
  refine ⟨{ sig with _slots := sig._slots ++ [mkReference f w1 fa1] }, ?_, ?_, ?_, ?_⟩
  · simp [Signal.connectSlot, init_ok f w1 fa1 hc, slotsAdd, hany1]
  · have hmk : (mkReference f w1 fa1).eqRef (mkReference f w2 fa2) = true := by
      simp [Reference.eqRef, Reference.eqHash, Reference.pyHash, mkReference]
    have hany2 :
        (sig._slots ++ [mkReference f w1 fa1]).any
          (fun s => s.eqRef (mkReference f w2 fa2)) = true := by
      rw [List.any_eq_true]
      exact ⟨mkReference f w1 fa1, by simp, hmk⟩
    simp [Signal.connectSlot, init_ok f w2 fa2 hc, slotsAdd, hany2]
  · have hnil : sig._slots.filter (fun t => t.eqObj f) = [] := by
      rw [List.filter_eq_nil_iff]
      intro t ht
      rw [hno t ht]
      simp
    have hone : (mkReference f w1 fa1).eqObj f = true := by
      simp [Reference.eqObj, Reference.eqHash, Reference.pyHash, mkReference]
    simp [List.filter_append, hnil, hone]
  · intro t ht hobj
    rcases List.mem_append.mp ht with hmem | hmem
    · rw [hno t hmem] at hobj
      exact absurd hobj (by simp)
    · rcases List.mem_singleton.mp hmem with rfl
      exact ⟨rfl, rfl⟩

/-- Closed witness for C4: connecting `oPlain` to the empty signal with
`force_async=True`, then again with `force_async=False`. -/
theorem connect_twice_idempotent_witness :
    oPlain.callable = true
  ∧ (∀ t ∈ sigEmpty._slots, t.eqObj oPlain = false)
  ∧ ∃ s1 : Signal,
      sigEmpty.connectSlot oPlain true true = (PyResult.ok oPlain, s1)
    ∧ s1.connectSlot oPlain false false = (PyResult.ok oPlain, s1)
    ∧ (s1._slots.filter (fun t => t.eqObj oPlain)).length = 1
    ∧ ∀ t ∈ s1._slots, t.eqObj oPlain = true →
        t.force_async = true ∧ t._weak = true :=
  ⟨by decide, by decide,
    connect_twice_idempotent sigEmpty oPlain true true false false
      (by decide) (by decide)⟩

/-- C5: when a weakly connected slot's referent is destroyed, the death
callback (`_wrap_callback` wrapping `Signal.disconnect`) sets the
Reference dead and removes it from `_slots`; once the callback has run to
completion no slot equal to the dead Reference remains, with no `emit`
call needed to trigger the cleanup.  The hypothesis is the Python set
invariant (no two equal References in `_slots`). -/
theorem death_callback_removes_slot (sig : Signal) (r : Reference)
    (_hweak : r._weak = true) (hnd : slotsNoDupb sig._slots = true) :
    (∀ s ∈ (sig.referenceDied r).1._slots, s.eqHash r.pyHash = false)
  ∧ (sig.referenceDied r).2._alive = false
  ∧ (sig.referenceDied r).2.pyHash = r.pyHash := by
  refine ⟨?_, rfl, rfl⟩
  intro s hs
  have hmem : s ∈ slotsRemove sig._slots r.pyHash := by
    simpa [Signal.referenceDied, Signal.disconnect, Reference.kill,
      Reference.pyHash] using hs
  exact slotsRemove_eqHash_false sig._slots r.pyHash hnd s hmem

/-- Closed witness for C5 on `sigDeath`. -/
theorem death_callback_removes_slot_witness :
    (mkReference oPlain true false)._weak = true
  ∧ slotsNoDupb sigDeath._slots = true
  ∧ ((∀ s ∈ (sigDeath.referenceDied (mkReference oPlain true false)).1._slots,
        s.eqHash (mkReference oPlain true false).pyHash = false)
    ∧ (sigDeath.referenceDied (mkReference oPlain true false)).2._alive = false
    ∧ (sigDeath.referenceDied (mkReference oPlain true false)).2.pyHash =
        (mkReference oPlain true false).pyHash) :=
  ⟨by decide, by decide,
    death_callback_removes_slot sigDeath (mkReference oPlain true false)
      (by decide) (by decide)⟩

/-- C6: Reference equality and hashing are defined purely from the
wrapped callable's hash captured at construction and are independent of
liveness: two References wrapping the same callable `f` (with any flags)
are equal and hash-equal, killing either side preserves both, and a dead
Reference still compares equal to a lookup key built from the original
callable. -/
theorem reference_identity_equality (f : Obj) (w1 fa1 w2 fa2 : Bool)
    (r1 r2 : Reference)
    (h1 : Reference.init f w1 fa1 = PyResult.ok r1)
    (h2 : Reference.init f w2 fa2 = PyResult.ok r2) :
    r1.eqRef r2 = true
  ∧ r1.pyHash = r2.pyHash
  ∧ (Reference.kill r1).pyHash = r1.pyHash
  ∧ (Reference.kill r1).eqRef r2 = true
  ∧ r1.eqRef (Reference.kill r2) = true
  ∧ (Reference.kill r1).eqObj f = true := by
  have hc : ¬ f.callable = false := by
    intro hf
    rw [Reference.init, if_pos hf] at h1
    exact PyResult.noConfusion h1
  rw [Reference.init, if_neg hc] at h1 h2
  have hr1 : r1 = mkReference f w1 fa1 := by
    cases h1
    rfl
  have hr2 : r2 = mkReference f w2 fa2 := by
    cases h2
    rfl
  subst hr1
  subst hr2
  simp [Reference.eqRef, Reference.eqHash, Reference.eqObj, Reference.pyHash,
    Reference.kill, mkReference]

/-- Closed witness for C6: `oPlain` wrapped weakly and strongly. -/
theorem reference_identity_equality_witness :
    Reference.init oPlain true false = PyResult.ok (mkReference oPlain true false)
  ∧ Reference.init oPlain false true = PyResult.ok (mkReference oPlain false true)
  ∧ ((mkReference oPlain true false).eqRef (mkReference oPlain false true) = true
    ∧ (mkReference oPlain true false).pyHash = (mkReference oPlain false true).pyHash
    ∧ (Reference.kill (mkReference oPlain true false)).pyHash =
        (mkReference oPlain true false).pyHash
    ∧ (Reference.kill (mkReference oPlain true false)).eqRef
        (mkReference oPlain false true) = true
    ∧ (mkReference oPlain true false).eqRef
        (Reference.kill (mkReference oPlain false true)) = true
    ∧ (Reference.kill (mkReference oPlain true false)).eqObj oPlain = true) :=
  ⟨by decide, by decide,
    reference_identity_equality oPlain true false false true
      (mkReference oPlain true false) (mkReference oPlain false true)
      (by decide) (by decide)⟩

/-- C7 (amended): a non-callable slot raises
`TypeError('obj has to be callable')` at `Reference` construction — which
is where the configurator-form wrapper takes it — before `_slots.add`
runs, so the error is fatal only to that call and the slot set is
unchanged.  `connect` invoked with a single non-callable positional
argument, however, raises nothing: the arity check routes it to the
configurator branch and the wrapper is returned with the argument
ignored. -/
theorem invalid_slot_type_error (sig : Signal) (obj : Obj) (w fa : Bool)
    (hnc : obj.callable = false) :
    Reference.init obj w fa =
        PyResult.raised (PyError.typeError "obj has to be callable")
  ∧ sig.connectSlot obj w fa =
        (PyResult.raised (PyError.typeError "obj has to be callable"), sig)
  ∧ sig.connect [obj] w fa = ConnectReturn.wrapperFn w fa := by
  have hinit : Reference.init obj w fa =
      PyResult.raised (PyError.typeError "obj has to be callable") := by
    rw [Reference.init, if_pos hnc]
  refine ⟨hinit, ?_, ?_⟩
  · simp [Signal.connectSlot, hinit]
  · simp [Signal.connect, hnc]

/-- C7 counterexample: `connect` called with one non-callable positional
argument returns the wrapper normally — no `TypeError` is raised at
connect time for this supplied slot. -/
theorem connect_noncallable_returns_wrapper :
    sigEmpty.connect [oNC] true false = ConnectReturn.wrapperFn true false := by
  decide

/-- Closed witness for C7 on the non-callable `oNC`. -/
theorem invalid_slot_type_error_witness :
    oNC.callable = false
  ∧ (Reference.init oNC true false =
        PyResult.raised (PyError.typeError "obj has to be callable")
    ∧ sigEmpty.connectSlot oNC true false =
        (PyResult.raised (PyError.typeError "obj has to be callable"), sigEmpty)
    ∧ sigEmpty.connect [oNC] true false = ConnectReturn.wrapperFn true false) :=
  ⟨by decide, invalid_slot_type_error sigEmpty oNC true false (by decide)⟩

/-- C9 (amended): `connect` invoked with exactly one positional argument
that is callable connects it immediately — regardless of the keyword
options — and returns the original slot, not the Reference; invoked with
zero or several positional arguments, or with a single non-callable one,
it returns the `wrapper` closure expecting the slot.  Applying that
wrapper to a slot performs `connectSlot` with the captured options, the
very operation the immediate form performs, so both conventions have
identical connection side effects. -/
theorem connect_decorator_convention (sig : Signal) (f a b : Obj)
    (rest : List Obj) (w fa : Bool) :
    (f.callable = true →
        sig.connect [f] w fa =
          ConnectReturn.immediate (sig.connectSlot f w fa).1
            (sig.connectSlot f w fa).2
      ∧ (sig.connectSlot f w fa).1 = PyResult.ok f)
  ∧ (f.callable = false →
        sig.connect [f] w fa = ConnectReturn.wrapperFn w fa)
  ∧ sig.connect [] w fa = ConnectReturn.wrapperFn w fa
  ∧ sig.connect (a :: b :: rest) w fa = ConnectReturn.wrapperFn w fa := by
  refine ⟨fun hc => ⟨?_, ?_⟩, fun hc => ?_, rfl, rfl⟩
  · simp [Signal.connect, hc]
  · simp [Signal.connectSlot, init_ok f w fa hc]
  · simp [Signal.connect, hc]

/-- C9 counterexample: `connect` invoked with one callable positional
argument AND the non-default option `force_async=True` still connects the
slot immediately and returns it — it does not return a wrapper as the
claim predicts for calls carrying options. -/
theorem connect_with_options_still_immediate :
    sigEmpty.connect [oPlain] true true =
      ConnectReturn.immediate (PyResult.ok oPlain) sigAfterConnect := by
  decide

/-- Closed witness for C9 on `sigEmpty` and `oPlain`. -/
theorem connect_decorator_convention_witness :
    (oPlain.callable = true →
        sigEmpty.connect [oPlain] true false =
          ConnectReturn.immediate (sigEmpty.connectSlot oPlain true false).1
            (sigEmpty.connectSlot oPlain true false).2
      ∧ (sigEmpty.connectSlot oPlain true false).1 = PyResult.ok oPlain)
  ∧ (oPlain.callable = false →
        sigEmpty.connect [oPlain] true false = ConnectReturn.wrapperFn true false)
  ∧ sigEmpty.connect [] true false = ConnectReturn.wrapperFn true false
  ∧ sigEmpty.connect (oPlain :: oPlain :: []) true false =
      ConnectReturn.wrapperFn true false :=
  connect_decorator_convention sigEmpty oPlain oPlain oPlain [] true false

/-- C10: `Reference.__eq__` is decided solely by comparing the hash
captured at construction with the operand's hash: a Reference compares
equal to the raw callable it wraps (which is why `disconnect` with the raw
callable removes the wrapping Reference from `_slots`, shown by the last
conjunct), and two References wrapping distinct callables whose hashes
collide also compare equal. -/
theorem reference_equality_hash_only (f g : Obj) (w1 fa1 w2 fa2 : Bool)
    (r s : Reference) (slots : List Reference)
    (h1 : Reference.init f w1 fa1 = PyResult.ok r)
    (h2 : Reference.init g w2 fa2 = PyResult.ok s)
    (hno : ∀ t ∈ slots, t.eqObj f = false) :
    r.eqObj f = true
  ∧ r.eqRef s = (f.hash == g.hash)
  ∧ (f.hash = g.hash → r.eqRef s = true)
  ∧ slotsRemove (slotsAdd slots r) f.hash = slots := by
  have hcf : ¬ f.callable = false := by
    intro hf
    rw [Reference.init, if_pos hf] at h1
    exact PyResult.noConfusion h1
  have hcg : ¬ g.callable = false := by
    intro hf
    rw [Reference.init, if_pos hf] at h2
    exact PyResult.noConfusion h2
  rw [Reference.init, if_neg hcf] at h1
  rw [Reference.init, if_neg hcg] at h2
  have hr : r = mkReference f w1 fa1 := by
    cases h1
    rfl
  have hs : s = mkReference g w2 fa2 := by
    cases h2
    rfl
  subst hr
  subst hs
  refine ⟨?_, rfl, ?_, ?_⟩
  · simp [Reference.eqObj, Reference.eqHash, Reference.pyHash, mkReference]
  · intro hfg
    simp [Reference.eqRef, Reference.eqHash, Reference.pyHash, mkReference, hfg]
  · have hany : slots.any
        (fun t => t.eqRef (mkReference f w1 fa1)) = false := by
      rw [List.any_eq_false]
      intro t ht
      rw [show t.eqRef (mkReference f w1 fa1) = t.eqObj f from rfl, hno t ht]
      simp
    rw [slotsAdd, hany]
    simp only [Bool.false_eq_true, if_false]
    exact slotsRemove_append_last slots (mkReference f w1 fa1) f.hash
      (fun t ht => hno t ht)
      (by simp [Reference.eqHash, Reference.pyHash, mkReference])

/-- Closed witness for C10: `oPlain` and `oColl` are distinct callables
with colliding hashes; the slot list holds one unrelated Reference. -/
theorem reference_equality_hash_only_witness :
    Reference.init oPlain true false = PyResult.ok (mkReference oPlain true false)
  ∧ Reference.init oColl true false = PyResult.ok (mkReference oColl true false)
  ∧ (∀ t ∈ [mkReference oAfter true false], t.eqObj oPlain = false)
  ∧ oPlain.id ≠ oColl.id
  ∧ ((mkReference oPlain true false).eqObj oPlain = true
    ∧ (mkReference oPlain true false).eqRef (mkReference oColl true false) =
        (oPlain.hash == oColl.hash)
    ∧ (oPlain.hash = oColl.hash →
        (mkReference oPlain true false).eqRef (mkReference oColl true false) = true)
    ∧ slotsRemove
        (slotsAdd [mkReference oAfter true false] (mkReference oPlain true false))
        oPlain.hash = [mkReference oAfter true false]) :=
  ⟨by decide, by decide, by decide, by decide,
    reference_equality_hash_only oPlain oColl true false true false
      (mkReference oPlain true false) (mkReference oColl true false)
      [mkReference oAfter true false] (by decide) (by decide) (by decide)⟩

end Signaller
